import Mathlib

set_option autoImplicit false

namespace R12

/-!
Shallow embedding of the R12 classification pipeline
(main.py, scripts/convert_pdf.py, scripts/classify_context.py, scripts/ocr.py).
Text is modelled as `List Char`; Python `str.split()` (split on whitespace
runs, dropping empty pieces) and `sep.join(...)` are modelled below.
-/

/-- Helper for `pySplit`: extends the split of `cs` after reading a
non-whitespace character `c`.  `rest` is the split of `cs`. -/
def startWord (c : Char) (cs : List Char) (rest : List (List Char)) :
    List (List Char) :=
  match cs with
  | [] => [[c]]
  | d :: _ =>
    if d.isWhitespace then [c] :: rest
    else
      match rest with
      | [] => [[c]]
      | w :: ws => (c :: w) :: ws

/-- Models Python `str.split()` with no arguments: split on runs of
whitespace and drop empty tokens (used at main.py lines 26 and 63). -/
def pySplit : List Char → List (List Char)
  | [] => []
  | c :: cs =>
    if c.isWhitespace then pySplit cs
    else startWord c cs (pySplit cs)

/-- Models Python `sep.join(pieces)` for a list of pieces. -/
def pyJoinSep (sep : List Char) : List (List Char) → List Char
  | [] => []
  | [w] => w
  | w :: w' :: ws => w ++ sep ++ pyJoinSep sep (w' :: ws)

/-- Models Python `' '.join(words)` (main.py line 32). -/
def pyJoin (ws : List (List Char)) : List Char :=
  pyJoinSep [' '] ws

/-- A word as produced by `pySplit`: nonempty and whitespace-free. -/
def goodWord (w : List Char) : Prop :=
  w ≠ [] ∧ ∀ c ∈ w, ¬ c.isWhitespace


/-!
main.py, `.txt` branch (lines 22 to 33): read the text, split into
whitespace tokens, and when the token count exceeds 3000 truncate to the
first 3000 tokens rejoined with single spaces, setting the count to 3000.
Returns the final text content and the final recorded word count.
-/

def txtPipeline (text_content : List Char) : List Char × Nat :=
  let words := pySplit text_content
  let word_count := words.length
  if word_count > 3000 then (pyJoin (words.take 3000), 3000)
  else (text_content, word_count)

/-!
scripts/convert_pdf.py: a PDF document is modelled as the list of its
pages; `page.get_text()` is the page's text field.
-/

/-- A PDF page; `text` models `page.get_text()` from PyMuPDF. -/
structure Page where
  text : List Char
deriving DecidableEq

/-- Models `extract_first_n_pages` (convert_pdf.py lines 14 to 22): a new
document built by inserting page `i` for `i` in `range(min(n, len(doc)))`. -/
def extract_first_n_pages (doc : List Page) (n : Nat) : List Page :=
  (List.range (min n doc.length)).filterMap fun i => doc[i]?

/-- Models `pdf_to_text` (convert_pdf.py lines 4 to 12): take the slice
`doc[:num_pages]` and join the page texts with a blank-line separator. -/
def pdf_to_text (doc : List Page) (num_pages : Nat) : List Char :=
  pyJoinSep ['\n', '\n'] ((doc.take num_pages).map Page.text)

/-!
main.py, `.pdf` branch, lines 53 to 75 (the portion after the
`first5_pdf_bytes` assignment; note that in the source this code is only
reachable if the name `pdf_bytes` were bound, which it is not — see the
name-resolution model further below).  `ocrText` models
`ocr_pdf_to_text` as an oracle from the bounded document to recognized
text.  The result is the final text, the final word count, and the number
of times the optical-recovery path was invoked.
-/

def pdfPipeline (doc : List Page) (ocrText : List Page → List Char) :
    List Char × Nat × Nat :=
  let first5_pdf := extract_first_n_pages doc 15
  let text_content := pdf_to_text first5_pdf 15
  let word_count := (pySplit text_content).length
  if word_count < 100 then
    let ocred := ocrText first5_pdf
    (ocred, (pySplit ocred).length, 1)
  else
    (text_content, word_count, 0)

/-!
scripts/classify_context.py: the classifier.  The LLM response `content`
(a string) is abstracted as a `RawResponse`: whether it is well-formed
JSON (`jsonOk`, used both by pydantic's `validate_json` and by
`json.loads`), whether the comma-repaired text parses (`repairOk`,
consulted only when `jsonOk` is false; the repair itself is the regex
substitution at line 328 inserting a missing comma separator between
fields that have run together), and the four fields of the decoded JSON
object, each absent or present.  The taxonomy configuration
definitions.json is not under src/, so the subcategory map `subcats` is a
parameter (category name to subcategory-name list, empty for unknown
keys, mirroring `SubcategoryEnumMap.get(cat_val, [])`).
-/

/-- The values of the `Category` enum (classify_context.py lines 51 to 59),
also the categories admitted by the discriminated union. -/
def categoryValues : List String :=
  ["Contract", "Litigation", "Regulatory", "Financial", "Statutory",
   "Email", "other"]

/-- A classification result: the common field shape of the seven
discriminated-union models (classify_context.py lines 63 to 239). -/
structure ClassificationResult where
  category : String
  subcategory : String
  summary : String
  key_themes : List String
deriving DecidableEq

/-- Abstraction of the LLM response string `content`
(classify_context.py line 317). -/
structure RawResponse where
  jsonOk : Bool
  repairOk : Bool
  category : Option String
  subcategory : Option String
  summary : Option String
  key_themes : Option (List String)
deriving DecidableEq

/-- Whether a decoded category and subcategory pair passes the check at
classify_context.py line 336: the category is a `Category` enum value and
the subcategory is in that category's subcategory enum (a missing field,
Python `None`, fails the membership test). -/
def goodPair (subcats : String → List String) (catv subv : Option String) :
    Bool :=
  match catv, subv with
  | some c, some s => decide (c ∈ categoryValues) && decide (s ∈ subcats c)
  | _, _ => false

/-- Models `TypeAdapter(ClassificationResult).validate_json(content)`
(classify_context.py line 321): the content must be well-formed JSON with
all four fields present, a category and subcategory accepted by one of the
seven union members, and exactly 3 key themes. -/
def validate_json (subcats : String → List String) (r : RawResponse) :
    Option ClassificationResult :=
  if r.jsonOk then
    match r.category, r.subcategory, r.summary, r.key_themes with
    | some c, some s, some sm, some kt =>
      if goodPair subcats (some c) (some s) ∧ kt.length = 3 then
        some ⟨c, s, sm, kt⟩
      else none
    | _, _, _, _ => none
  else none

/-- Outcome of one `classify_context` call: a returned result, or one of
the three exceptions that can escape (a JSON decode error when the
comma-repair re-parse also fails, a pydantic validation error from
constructing the fallback `OtherClassification`, or the explicit
`RuntimeError` at line 345). -/
inductive ClassifyOutcome where
  | ok (result : ClassificationResult)
  | jsonDecodeError
  | validationError
  | runtimeError
deriving DecidableEq

/-- Models classify_context.py lines 320 to 346: the logic applied to the
single model response.  The `OtherClassification` construction at lines
337 to 342 is validated by pydantic, which enforces exactly 3 key themes
(`min_items=3, max_items=3`), so a fallback with a key-themes list of any
other length raises a validation error instead of returning. -/
def classify_once (subcats : String → List String) (r : RawResponse) :
    ClassifyOutcome :=
  match validate_json subcats r with
  | some parsed => .ok parsed
  | none =>
    if r.jsonOk || r.repairOk then
      if goodPair subcats r.category r.subcategory then
        .runtimeError
      else
        if (r.key_themes.getD []).length = 3 then
          .ok ⟨"other", "other", r.summary.getD "", r.key_themes.getD []⟩
        else .validationError
    else .jsonDecodeError

/-- Models `classify_context` (classify_context.py lines 241 to 346).
`respond k` is the model's response to the k-th invocation of
`client.chat.completions.create` with the fixed prompt and document text;
the source makes exactly one such call (line 310) and then runs the
parse-validate-fallback logic on it.  Returns the outcome together with
the number of model invocations performed. -/
def classify_context (subcats : String → List String)
    (respond : Nat → RawResponse) : ClassifyOutcome × Nat :=
  let content := respond 0
  (classify_once subcats content, 1)

/-- Modelled from the spec: the Taxonomy Store operation
`is_valid(category, subcategory)` of section 4.1 (no such function exists
under src/; definitions.json is also absent): true when the category is a
taxonomy category and the subcategory belongs to it. -/
def taxonomy_is_valid (subcats : String → List String) (c s : String) :
    Bool :=
  decide (c ∈ categoryValues) && decide (s ∈ subcats c)

/-- Modelled from the spec: a concrete example taxonomy configuration
(definitions.json is not under src/), consistent with the spec's section 8
scenario in which "Discovery Request" is a Litigation subcategory, and
with the closed catch-all "other"/"other" pair.  Used only to instantiate
parametric theorems at concrete inputs. -/
def demoSubcats : String → List String := fun c =>
  if c = "Contract" then ["Purchase Agreement", "Lease Agreement"]
  else if c = "Litigation" then ["Complaint", "Discovery Request"]
  else if c = "other" then ["other"]
  else []

/-!
scripts/ocr.py, `ocr_pdf_to_text` (lines 74 to 116), as invoked from
main.py (no `output_txt`): the three temporary folders are the rendered
page-image folder created by `pdf_to_images`, and the region-image and
JSON folders created by `ocr_images`.  `convertFails` models
`convert_from_path` raising (after the page folder was created);
`predictFails` models `ocr.predict` (or a save) raising inside the
`ocr_images` loop (after all three folders were created); `recText` is the
collated recognized text.  The function body has no try/finally: the
cleanup `shutil.rmtree` calls at lines 111 to 113 run only when control
reaches them. -/

/-- Which of the three temporary folders exist on disk. -/
structure FolderState where
  pagesDir : Bool
  ocrImagesDir : Bool
  ocrJsonDir : Bool
deriving DecidableEq

/-- Behaviour of the external conversion and recognition engines during
one `ocr_pdf_to_text` call. -/
structure OcrEnv where
  convertFails : Bool
  predictFails : Bool
  recText : List Char
deriving DecidableEq

/-- Models `ocr_pdf_to_text(pdf_path, cleanup=...)`: returns the folder
state at exit and either the collated text or the propagated exception. -/
def ocr_pdf_to_text (env : OcrEnv) (cleanup : Bool) (fs : FolderState) :
    FolderState × Except Unit (List Char) :=
  let fs1 := { fs with pagesDir := true }
  if env.convertFails then (fs1, .error ())
  else
    let fs2 := { fs1 with ocrImagesDir := true, ocrJsonDir := true }
    if env.predictFails then (fs2, .error ())
    else
      if cleanup then
        ({ pagesDir := false, ocrImagesDir := false, ocrJsonDir := false },
         .ok env.recText)
      else (fs2, .ok env.recText)

/-!
main.py, name resolution in the `.pdf` branch (lines 47 to 94).  A
statement is an assignment target together with the names its right-hand
side reads; execution binds targets in order and stops with Python's
`NameError` at the first read of an unbound name.  The OCR block at lines
67 to 74 is guarded by `word_count < 100`; it is listed with its reads
(running it is the at-most case).  The environment at entry to the branch
holds the module-level imports, the function `main`, and the two local
names bound at lines 14 and 15.
-/

structure PyStmt where
  target : String
  reads : List String

/-- Runs assignments in order: on the first read of a name missing from
the environment, stops with that name (Python `NameError`) and the
environment reached so far; otherwise returns the final environment. -/
def runStmts : List PyStmt → List String →
    Except (String × List String) (List String)
  | [], env => .ok env
  | st :: rest, env =>
    match st.reads.find? (fun r => ! env.contains r) with
    | some missing => .error (missing, env)
    | none => runStmts rest (st.target :: env)

/-- Names bound when execution reaches main.py line 48: module imports
(lines 1 to 6), the function `main`, and the locals of lines 14 and 15. -/
def mainPdfEntryEnv : List String :=
  ["sys", "os", "time", "pdf_to_text", "extract_first_n_pages",
   "ocr_pdf_to_text", "classify_context", "main", "input_pdf_path", "ext"]

/-- The assignments of main.py's `.pdf` branch in source order with the
names each right-hand side reads: line 48, line 53, line 58, line 63, the
guarded OCR block at lines 67 to 74, line 83, and line 94. -/
def mainPdfStmts : List PyStmt :=
  [⟨"start_time", ["time"]⟩,
   ⟨"first5_pdf_bytes", ["extract_first_n_pages", "pdf_bytes"]⟩,
   ⟨"text_content", ["pdf_to_text", "first5_pdf_bytes"]⟩,
   ⟨"word_count", ["text_content"]⟩,
   ⟨"text_content", ["word_count", "ocr_pdf_to_text", "first5_pdf_bytes"]⟩,
   ⟨"word_count", ["text_content"]⟩,
   ⟨"result", ["classify_context", "text_content"]⟩,
   ⟨"end_time", ["time"]⟩]

/-!
Concrete example values, used to instantiate the parametric theorems.
-/

/-- A response carrying the spec's section 8 scenario: a Contract category
with a Litigation subcategory, an inconsistent pair. -/
def invalidPairResp : RawResponse :=
  ⟨true, true, some "Contract", some "Discovery Request",
   some "A contract-like document.", some ["t1", "t2", "t3"]⟩

/-- A response that passes the discriminated-union validation under
`demoSubcats`. -/
def validResp : RawResponse :=
  ⟨true, true, some "Contract", some "Purchase Agreement",
   some "A purchase agreement.", some ["a", "b", "c"]⟩

/-- A response with an inconsistent pair and only two key themes. -/
def shortThemesResp : RawResponse :=
  ⟨true, true, some "Contract", some "Discovery Request",
   some "A contract-like document.", some ["t1", "t2"]⟩

/-- A response whose content is not well-formed JSON and whose comma-repair
also fails to parse. -/
def malformedResp : RawResponse :=
  ⟨false, false, none, none, none, none⟩

/-- A model whose first response carries an invalid pair and whose second
response would be valid. -/
def twoAttemptRespond : Nat → RawResponse := fun k =>
  if k = 0 then invalidPairResp else validResp

theorem pySplit_nil : pySplit [] = [] := rfl

theorem pySplit_cons_ws {c : Char} (cs : List Char) (h : c.isWhitespace) :
    pySplit (c :: cs) = pySplit cs := by
  simp [pySplit, h]

theorem pySplit_cons_nonWs {c : Char} (cs : List Char) (h : ¬ c.isWhitespace) :
    pySplit (c :: cs) = startWord c cs (pySplit cs) := by
  simp [pySplit, h]

/-- Every token produced by `pySplit` is a nonempty whitespace-free word. -/
theorem pySplit_good : ∀ (s : List Char), ∀ w ∈ pySplit s, goodWord w := by
  intro s
  induction s with
  | nil => intro w hw; simp [pySplit] at hw
  | cons c cs ih =>
    intro w hw
    by_cases hc : c.isWhitespace
    · rw [pySplit_cons_ws cs hc] at hw
      exact ih w hw
    · rw [pySplit_cons_nonWs cs hc] at hw
      cases cs with
      | nil =>
        simp [startWord] at hw
        subst hw
        refine ⟨by simp, ?_⟩
        intro x hx
        simp at hx
        subst hx
        exact hc
      | cons d cs' =>
        by_cases hd : d.isWhitespace
        · simp only [startWord, if_pos hd, List.mem_cons] at hw
          rcases hw with hw | hw
          · subst hw
            refine ⟨by simp, ?_⟩
            intro x hx
            simp at hx
            subst hx
            exact hc
          · exact ih w hw
        · simp only [startWord, if_neg hd] at hw
          cases hrest : pySplit (d :: cs') with
          | nil =>
            rw [hrest] at hw
            simp at hw
            subst hw
            refine ⟨by simp, ?_⟩
            intro x hx
            simp at hx
            subst hx
            exact hc
          | cons w0 ws0 =>
            rw [hrest] at hw
            simp only [List.mem_cons] at hw
            rcases hw with hw | hw
            · subst hw
              have hw0 : goodWord w0 := ih w0 (by rw [hrest]; exact List.mem_cons_self _ _)
              refine ⟨by simp, ?_⟩
              intro x hx
              rcases List.mem_cons.mp hx with hx | hx
              · subst hx; exact hc
              · exact hw0.2 x hx
            · exact ih w (by rw [hrest]; exact List.mem_cons_of_mem _ hw)

/-- Splitting a single nonempty whitespace-free word yields just that word. -/
theorem pySplit_single : ∀ (w : List Char), goodWord w → pySplit w = [w] := by
  intro w
  induction w with
  | nil => intro h; exact absurd rfl h.1
  | cons c w' ih =>
    intro h
    have hc : ¬ c.isWhitespace := h.2 c (List.mem_cons_self _ _)
    cases w' with
    | nil => simp [pySplit, hc, startWord]
    | cons c' w'' =>
      have hc' : ¬ c'.isWhitespace := h.2 c' (by simp)
      have htail : goodWord (c' :: w'') := by
        refine ⟨by simp, ?_⟩
        intro x hx
        exact h.2 x (List.mem_cons_of_mem _ hx)
      rw [pySplit_cons_nonWs _ hc]
      simp only [startWord, if_neg hc']
      rw [ih htail]

/-- Splitting a word followed by a space and a tail splits off the word. -/
theorem pySplit_word_space (t : List Char) :
    ∀ (w : List Char), goodWord w → pySplit (w ++ ' ' :: t) = w :: pySplit t := by
  intro w
  induction w with
  | nil => intro h; exact absurd rfl h.1
  | cons c w' ih =>
    intro h
    have hc : ¬ c.isWhitespace := h.2 c (List.mem_cons_self _ _)
    cases w' with
    | nil =>
      have hsp : (' ' : Char).isWhitespace := by decide
      simp only [List.cons_append, List.nil_append]
      rw [pySplit_cons_nonWs _ hc]
      simp only [startWord, if_pos hsp]
      rw [pySplit_cons_ws t hsp]
    | cons c' w'' =>
      have hc' : ¬ c'.isWhitespace := h.2 c' (by simp)
      have htail : goodWord (c' :: w'') := by
        refine ⟨by simp, ?_⟩
        intro x hx
        exact h.2 x (List.mem_cons_of_mem _ hx)
      have ihw := ih htail
      simp only [List.cons_append] at ihw ⊢
      rw [pySplit_cons_nonWs _ hc]
      simp only [startWord, if_neg hc']
      rw [ihw]

/-- Round trip: splitting the space-join of good words returns the words. -/
theorem pySplit_pyJoin :
    ∀ (ws : List (List Char)), (∀ w ∈ ws, goodWord w) →
      pySplit (pyJoin ws) = ws := by
  intro ws
  induction ws with
  | nil => intro _; rfl
  | cons w ws' ih =>
    intro h
    have hw : goodWord w := h w (List.mem_cons_self _ _)
    cases ws' with
    | nil =>
      show pySplit (pyJoinSep [' '] [w]) = [w]
      simp only [pyJoinSep]
      exact pySplit_single w hw
    | cons w' ws'' =>
      have hrest : pySplit (pyJoinSep [' '] (w' :: ws'')) = w' :: ws'' :=
        ih (fun x hx => h x (List.mem_cons_of_mem _ hx))
      show pySplit (pyJoinSep [' '] (w :: w' :: ws'')) = w :: w' :: ws''
      simp only [pyJoinSep]
      have : w ++ [' '] ++ pyJoinSep [' '] (w' :: ws'') =
          w ++ ' ' :: pyJoinSep [' '] (w' :: ws'') := by
        simp
      rw [this, pySplit_word_space _ w hw, hrest]

/-- C4: plain-text extraction splits the content into whitespace-delimited
tokens and returns a text of exactly min of the original word count and
3000 words; inputs of at most 3000 words pass through unmodified with the
original word count, and longer inputs are hard-truncated to exactly the
first 3000 words, rejoined with single spaces. -/
theorem txt_word_cap (text : List Char) :
    (txtPipeline text).2 = min (pySplit text).length 3000 ∧
    pySplit (txtPipeline text).1 = (pySplit text).take 3000 ∧
    (pySplit (txtPipeline text).1).length = min (pySplit text).length 3000 ∧
    ((pySplit text).length ≤ 3000 → (txtPipeline text).1 = text) := by
  by_cases h : (pySplit text).length > 3000
  · have hgood : ∀ w ∈ (pySplit text).take 3000, goodWord w := fun w hw =>
      pySplit_good text w (List.take_subset _ _ hw)
    have hrt : pySplit (pyJoin ((pySplit text).take 3000)) =
        (pySplit text).take 3000 := pySplit_pyJoin _ hgood
    have hp : txtPipeline text = (pyJoin ((pySplit text).take 3000), 3000) := by
      simp [txtPipeline, h]
    rw [hp]
    refine ⟨?_, ?_, ?_, ?_⟩
    · simpa using (Nat.min_eq_right (Nat.le_of_lt h)).symm
    · simpa using hrt
    · simp only [hrt, List.length_take]
      omega
    · intro hle; omega
  · have hle : (pySplit text).length ≤ 3000 := Nat.le_of_not_lt h
    have hp : txtPipeline text = (text, (pySplit text).length) := by
      simp [txtPipeline, h]
    rw [hp]
    refine ⟨?_, ?_, ?_, fun _ => rfl⟩
    · simpa using (Nat.min_eq_left hle).symm
    · simpa using (List.take_of_length_le hle).symm
    · simp only [List.take_of_length_le hle]
      omega

/-- C4 witness: a 3-word input passes through with word count 3. -/
theorem txt_word_cap_witness :
    txtPipeline ("ab  cd e".toList) = ("ab  cd e".toList, 3) ∧
    (txtPipeline ("ab  cd e".toList)).2 =
      min (pySplit "ab  cd e".toList).length 3000 :=
  ⟨by decide, (txt_word_cap "ab  cd e".toList).1⟩

theorem range_getElem_take (doc : List Page) :
    ∀ k, k ≤ doc.length →
      (List.range k).filterMap (fun i => doc[i]?) = doc.take k := by
  intro k
  induction k with
  | zero => intro _; simp
  | succ k ih =>
    intro h
    have hk : k < doc.length := h
    rw [List.range_succ, List.filterMap_append, ih (Nat.le_of_succ_le h)]
    have h1 : List.filterMap (fun i => doc[i]?) [k] = [doc[k]] := by
      rw [List.filterMap_cons, List.getElem?_eq_getElem hk]
      rfl
    rw [h1, List.take_succ, List.getElem?_eq_getElem hk]
    rfl

theorem extract_first_n_pages_eq_take (doc : List Page) (n : Nat) :
    extract_first_n_pages doc n = doc.take n := by
  unfold extract_first_n_pages
  rw [range_getElem_take doc (min n doc.length) (Nat.min_le_right _ _)]
  rcases Nat.le_total n doc.length with h | h
  · rw [Nat.min_eq_left h]
  · rw [Nat.min_eq_right h, List.take_length,
        List.take_of_length_le h]

/-- C5: for every PDF and page bound, `extract_first_n_pages` materializes
a new document holding exactly the first min(n, page count) pages in their
original order, and `pdf_to_text` of that document is the blank-line join
of the per-page texts of that reduced range; no page past the first n
contributes. -/
theorem pdf_page_bound (doc : List Page) (n : Nat) :
    extract_first_n_pages doc n = doc.take n ∧
    (extract_first_n_pages doc n).length = min n doc.length ∧
    pdf_to_text (extract_first_n_pages doc n) n =
      pyJoinSep ['\n', '\n'] ((doc.take n).map Page.text) := by
  have he := extract_first_n_pages_eq_take doc n
  refine ⟨he, ?_, ?_⟩
  · rw [he, List.length_take]
  · rw [pdf_to_text, he, List.take_take, min_self]

/-- C6: in the PDF pipeline of main.py, the optical-recovery path runs
exactly once if and only if direct extraction yields strictly fewer than
100 words, in which case its output replaces both the text and the word
count; it never runs twice, and never runs when direct extraction yields
100 or more words. -/
theorem ocr_fallback_policy (doc : List Page)
    (ocrText : List Page → List Char) :
    ((pySplit (pdf_to_text (extract_first_n_pages doc 15) 15)).length < 100 ↔
      (pdfPipeline doc ocrText).2.2 = 1) ∧
    (pdfPipeline doc ocrText).2.2 ≤ 1 ∧
    ((pySplit (pdf_to_text (extract_first_n_pages doc 15) 15)).length < 100 →
      (pdfPipeline doc ocrText).1 = ocrText (extract_first_n_pages doc 15) ∧
      (pdfPipeline doc ocrText).2.1 =
        (pySplit (ocrText (extract_first_n_pages doc 15))).length) ∧
    (100 ≤ (pySplit (pdf_to_text (extract_first_n_pages doc 15) 15)).length →
      pdfPipeline doc ocrText =
        (pdf_to_text (extract_first_n_pages doc 15) 15,
         (pySplit (pdf_to_text (extract_first_n_pages doc 15) 15)).length,
         0)) := by
  by_cases h :
      (pySplit (pdf_to_text (extract_first_n_pages doc 15) 15)).length < 100
  · simp [pdfPipeline, h]
  · simp [pdfPipeline, h]

/-- C6 witness: an empty document yields 0 direct words, so the
optical-recovery path is invoked exactly once. -/
theorem ocr_fallback_policy_witness :
    (pySplit (pdf_to_text (extract_first_n_pages ([] : List Page) 15)
      15)).length < 100 ∧
    (pdfPipeline [] (fun _ => "x y".toList)).2.2 = 1 :=
  ⟨by decide,
   (ocr_fallback_policy [] (fun _ => "x y".toList)).1.mp (by decide)⟩

theorem validate_json_some (subcats : String → List String)
    (r : RawResponse) (p : ClassificationResult)
    (h : validate_json subcats r = some p) :
    p.category ∈ categoryValues ∧ p.subcategory ∈ subcats p.category ∧
      p.key_themes.length = 3 := by
  unfold validate_json at h
  split at h
  · split at h
    · rename_i c s sm kt hm
      split at h
      · rename_i hcond
        cases h
        simp only [goodPair, Bool.and_eq_true, decide_eq_true_eq] at hcond
        exact ⟨hcond.1.1, hcond.1.2, hcond.2⟩
      · exact absurd h (by simp)
    · exact absurd h (by simp)
  · exact absurd h (by simp)

/-- C1: every `ClassificationResult` returned (not raised) by the
classifier has a subcategory that belongs to its category in the taxonomy;
when the model's pair is not taxonomy-consistent the fallback branch
returns the catch-all pair, which is taxonomy-consistent because the
taxonomy's catch-all category contains the catch-all subcategory. -/
theorem classify_taxonomy_consistent (subcats : String → List String)
    (hother : "other" ∈ subcats "other") (r : RawResponse)
    (res : ClassificationResult)
    (h : classify_once subcats r = .ok res) :
    taxonomy_is_valid subcats res.category res.subcategory = true := by
  unfold classify_once at h
  split at h
  · rename_i p hp
    injection h with h'
    subst h'
    have hs := validate_json_some subcats r p hp
    simp only [taxonomy_is_valid, Bool.and_eq_true, decide_eq_true_eq]
    exact ⟨hs.1, hs.2.1⟩
  · split at h
    · split at h
      · exact ClassifyOutcome.noConfusion h
      · split at h
        · injection h with h'
          subst h'
          simp only [taxonomy_is_valid, Bool.and_eq_true, decide_eq_true_eq]
          exact ⟨by decide, hother⟩
        · exact ClassifyOutcome.noConfusion h
    · exact ClassifyOutcome.noConfusion h

/-- C1 witness: under the example taxonomy, a directly validated response
is returned with a taxonomy-consistent pair. -/
theorem classify_taxonomy_consistent_witness :
    taxonomy_is_valid demoSubcats "Contract" "Purchase Agreement" = true :=
  classify_taxonomy_consistent demoSubcats (by decide) validResp
    ⟨"Contract", "Purchase Agreement", "A purchase agreement.",
     ["a", "b", "c"]⟩ (by decide)

/-- C2 counterexample: a model whose first response carries an invalid
pair and whose second response would validate.  The classifier still
performs exactly one model invocation (not two) and takes the fallback
immediately, so the claim that an invalid first response triggers a
second identical request before the fallback is false on this input. -/
theorem single_invocation_counterexample :
    validate_json demoSubcats (twoAttemptRespond 0) = none ∧
    validate_json demoSubcats (twoAttemptRespond 1) =
      some ⟨"Contract", "Purchase Agreement", "A purchase agreement.",
            ["a", "b", "c"]⟩ ∧
    classify_context demoSubcats twoAttemptRespond =
      (.ok ⟨"other", "other", "A contract-like document.",
            ["t1", "t2", "t3"]⟩, 1) ∧
    (classify_context demoSubcats twoAttemptRespond).2 ≠ 2 := by
  refine ⟨by decide, by decide, by decide, by decide⟩

/-- C2 amended: a `classify_context` call performs exactly one model
invocation, and its outcome depends only on the first response; there is
no retry, so the fallback is taken after a single invalid attempt. -/
theorem classify_single_invocation (subcats : String → List String)
    (respond respond' : Nat → RawResponse) (h : respond' 0 = respond 0) :
    (classify_context subcats respond).2 = 1 ∧
    classify_context subcats respond' =
      classify_context subcats respond := by
  refine ⟨rfl, ?_⟩
  unfold classify_context
  rw [h]

/-- C2 amended witness: the call on the two-attempt model makes one
invocation. -/
theorem classify_single_invocation_witness :
    (classify_context demoSubcats twoAttemptRespond).2 = 1 :=
  (classify_single_invocation demoSubcats twoAttemptRespond
    (fun _ => invalidPairResp) (by decide)).1

/-- C3 counterexample: a response that parses as JSON and carries a
taxonomy-inconsistent pair, but with only two key themes.  The fallback
construction of `OtherClassification` fails pydantic validation, so the
classifier escalates an error instead of returning the catch-all pair
with the themes preserved — refuting the claim as universally stated. -/
theorem fallback_escalates_counterexample :
    shortThemesResp.jsonOk = true ∧
    ¬ ("Contract" ∈ categoryValues ∧
        "Discovery Request" ∈ demoSubcats "Contract") ∧
    classify_once demoSubcats shortThemesResp = .validationError ∧
    ∀ res : ClassificationResult,
      classify_once demoSubcats shortThemesResp ≠ .ok res := by
  have h1 : classify_once demoSubcats shortThemesResp =
      .validationError := by decide
  refine ⟨rfl, by decide, h1, ?_⟩
  intro res h
  rw [h1] at h
  exact ClassifyOutcome.noConfusion h

/-- C3 amended: when the model's response parses as JSON, carries a
category and subcategory pair that is not taxonomy-consistent, and has a
summary and a key-themes list of exactly 3 elements, the classifier
returns the catch-all pair with the summary and key themes preserved
verbatim and raises no error. -/
theorem fallback_preserves_summary_themes (subcats : String → List String)
    (r : RawResponse) (c s sm : String) (kt : List String)
    (hjson : r.jsonOk = true) (hc : r.category = some c)
    (hs : r.subcategory = some s) (hsm : r.summary = some sm)
    (hkt : r.key_themes = some kt) (hlen : kt.length = 3)
    (hbad : ¬ (c ∈ categoryValues ∧ s ∈ subcats c)) :
    classify_once subcats r = .ok ⟨"other", "other", sm, kt⟩ := by
  have hcs : goodPair subcats (some c) (some s) = false := by
    unfold goodPair
    rcases Decidable.em (c ∈ categoryValues) with hcm | hcm
    · have hsn : s ∉ subcats c := fun hx => hbad ⟨hcm, hx⟩
      simp [hcm, hsn]
    · simp [hcm]
  have hv : validate_json subcats r = none := by
    unfold validate_json
    rw [hc, hs, hsm, hkt]
    simp [hjson, hcs]
  unfold classify_once
  rw [hv]
  simp [hjson, hc, hs, hsm, hkt, hcs, hlen]

/-- C3 amended witness: the scenario response with the inconsistent
Contract and Discovery Request pair is recovered to the catch-all pair
with its summary and three themes preserved. -/
theorem fallback_preserves_summary_themes_witness :
    classify_once demoSubcats invalidPairResp =
      .ok ⟨"other", "other", "A contract-like document.",
           ["t1", "t2", "t3"]⟩ :=
  fallback_preserves_summary_themes demoSubcats invalidPairResp
    "Contract" "Discovery Request" "A contract-like document."
    ["t1", "t2", "t3"] rfl rfl rfl rfl rfl rfl (by decide)

/-- C7: when the model's raw output is not well-formed JSON, the
classifier attempts the comma-insertion repair and re-parses; if the
repaired text still fails to parse it raises the JSON decode error rather
than returning any result, and if the repair parses, no JSON decode error
is raised and processing continues on the repaired data. -/
theorem malformed_repair_policy (subcats : String → List String)
    (r : RawResponse) (hjson : r.jsonOk = false) :
    (r.repairOk = false → classify_once subcats r = .jsonDecodeError) ∧
    (r.repairOk = true → classify_once subcats r ≠ .jsonDecodeError) := by
  have hv : validate_json subcats r = none := by
    simp [validate_json, hjson]
  constructor
  · intro hrep
    simp [classify_once, hv, hjson, hrep]
  · intro hrep
    simp only [classify_once, hv, hjson, hrep, Bool.false_or]
    cases hgp : goodPair subcats r.category r.subcategory
    · simp only [hgp, Bool.false_eq_true, if_false]
      by_cases hl : (r.key_themes.getD []).length = 3
      · simp [hl]
      · simp [hl]
    · simp [hgp]

/-- C7 witness: a response that is malformed and whose repair fails ends
in the JSON decode error. -/
theorem malformed_repair_policy_witness :
    classify_once demoSubcats malformedResp = .jsonDecodeError :=
  (malformed_repair_policy demoSubcats malformedResp rfl).1 rfl

/-- C8: every `ClassificationResult` returned by the classifier has a
key-themes list of exactly 3 elements, on both the direct-parse path and
the catch-all fallback path. -/
theorem key_themes_exactly_three (subcats : String → List String)
    (r : RawResponse) (res : ClassificationResult)
    (h : classify_once subcats r = .ok res) :
    res.key_themes.length = 3 := by
  unfold classify_once at h
  split at h
  · rename_i p hp
    injection h with h'
    subst h'
    exact (validate_json_some subcats r p hp).2.2
  · split at h
    · split at h
      · exact ClassifyOutcome.noConfusion h
      · split at h
        · rename_i hlen
          injection h with h'
          subst h'
          simpa using hlen
        · exact ClassifyOutcome.noConfusion h
    · exact ClassifyOutcome.noConfusion h

/-- C8 witness: the returned result for a directly valid response has
exactly 3 key themes. -/
theorem key_themes_exactly_three_witness :
    (⟨"Contract", "Purchase Agreement", "A purchase agreement.",
      ["a", "b", "c"]⟩ : ClassificationResult).key_themes.length = 3 :=
  key_themes_exactly_three demoSubcats validResp
    ⟨"Contract", "Purchase Agreement", "A purchase agreement.",
     ["a", "b", "c"]⟩ (by decide)

/-- C9 counterexample: an `ocr_pdf_to_text` call with cleanup enabled in
which recognition raises partway through.  The exception propagates with
all three temporary folders still present: the function body has no
try/finally, so the cleanup is skipped on this exit path, refuting the
claim that the artifacts are deleted on every exit path. -/
theorem ocr_cleanup_counterexample :
    ocr_pdf_to_text ⟨false, true, []⟩ true ⟨false, false, false⟩ =
      (⟨true, true, true⟩, .error ()) ∧
    (ocr_pdf_to_text ⟨false, true, []⟩ true
      ⟨false, false, false⟩).1.pagesDir = true :=
  ⟨rfl, rfl⟩

/-- C9 amended: with cleanup enabled, the rendered page-image folder, the
recognition region-image folder, and the recognition JSON folder are all
deleted on the normal-return exit path; on an exit via an exception from
image conversion or recognition the temporary folders are not removed. -/
theorem ocr_cleanup_on_success (env : OcrEnv) (fs : FolderState)
    (hconv : env.convertFails = false)
    (hpred : env.predictFails = false) :
    ocr_pdf_to_text env true fs =
      (⟨false, false, false⟩, .ok env.recText) := by
  simp [ocr_pdf_to_text, hconv, hpred]

/-- C9 amended witness: a run in which conversion and recognition succeed
removes all three folders and returns the collated text. -/
theorem ocr_cleanup_on_success_witness :
    ocr_pdf_to_text ⟨false, false, "hello".toList⟩ true
      ⟨true, true, true⟩ =
      (⟨false, false, false⟩, .ok "hello".toList) :=
  ocr_cleanup_on_success ⟨false, false, "hello".toList⟩
    ⟨true, true, true⟩ rfl rfl

/-- C10: with a `.pdf` argument, main.py's PDF branch reads the name
`pdf_bytes` at line 53 before any assignment to it ever occurs, so the
branch stops with an unbound-name error right after the `start_time`
assignment — before any page extraction, optical recovery, or
classification runs — and the CLI PDF pipeline can never bind `result`,
hence never produces a `ClassificationResult`. -/
theorem pdf_branch_unbound_name :
    runStmts mainPdfStmts mainPdfEntryEnv =
      .error ("pdf_bytes", "start_time" :: mainPdfEntryEnv) ∧
    "result" ∉ ("start_time" :: mainPdfEntryEnv) ∧
    ∀ env : List String,
      runStmts mainPdfStmts mainPdfEntryEnv ≠ .ok env := by
  have h1 : runStmts mainPdfStmts mainPdfEntryEnv =
      .error ("pdf_bytes", "start_time" :: mainPdfEntryEnv) := by rfl
  refine ⟨h1, by decide, ?_⟩
  intro env h
  rw [h1] at h
  exact Except.noConfusion h

end R12
